import Mathlib

/-
Verification of the proposals codex module
(src/runtime-modules/proposals/codex/src/lib.rs).

The definitions below are a shallow embedding of the Rust source.
Machine integers are modelled as Nat; `u32`/`u128` saturation is made
explicit where the source uses `saturated_into` / `saturating_add`.
Byte vectors are modelled as `List Nat`, account identifiers and all
opaque identities as `Nat`.
-/

set_option autoImplicit false

deriving instance DecidableEq for Except

namespace Codex

/-- Max allowed value for a 'Funding Request' proposal
(`MAX_SPENDING_PROPOSAL_VALUE` in the source). -/
def MAX_SPENDING_PROPOSAL_VALUE : Nat := 5000000

/-- Max validator count for the 'Set Max Validator Count' proposal
(`MAX_VALIDATOR_COUNT` in the source). -/
def MAX_VALIDATOR_COUNT : Nat := 100

/-- Max number of accounts that a funding request accepts
(`MAX_FUNDING_REQUEST_ACCOUNTS` in the source). -/
def MAX_FUNDING_REQUEST_ACCOUNTS : Nat := 100

/-- Codex module predefined errors, from the source's `decl_error!` block. -/
inductive Error where
  | SignalProposalIsEmpty
  | RuntimeProposalIsEmpty
  | InvalidFundingRequestProposalBalance
  | InvalidValidatorCount
  | RequireRootOrigin
  | InvalidCouncilElectionParameterCouncilSize
  | InvalidCouncilElectionParameterCandidacyLimit
  | InvalidCouncilElectionParameterMinVotingStake
  | InvalidCouncilElectionParameterNewTermDuration
  | InvalidCouncilElectionParameterMinCouncilStake
  | InvalidCouncilElectionParameterRevealingPeriod
  | InvalidCouncilElectionParameterVotingPeriod
  | InvalidCouncilElectionParameterAnnouncingPeriod
  | InvalidWorkingGroupBudgetCapacity
  | InvalidSetLeadParameterCannotBeCouncilor
  | SlashingStakeIsZero
  | DecreasingStakeIsZero
  | InsufficientFundsForBudgetUpdate
  | InvalidFundingRequestProposalNumberOfAccount
  | InvalidFundingRequestProposalRepeatedAccount
  deriving DecidableEq

/-- Dispatch-level errors: frame's `BadOrigin`, a codex module error, or an
error surfaced unchanged from an external collaborator (`Other`). -/
inductive DispatchError where
  | BadOrigin
  | Module (e : Error)
  | Other (n : Nat)
  deriving DecidableEq

/-- Extrinsic origins: root, a signed account, or none
(frame_system's origin model, which the source checks via `ensure_root`). -/
inductive Origin where
  | Root
  | Signed (account : Nat)
  | NoOrigin
  deriving DecidableEq

/-- Working groups, from the `common::working_group::WorkingGroup` enum as
matched in `get_update_working_group_budget_weight`. -/
inductive WorkingGroup where
  | Forum
  | Storage
  | Content
  | Membership
  deriving DecidableEq

/-- Balance kind for the 'Update Working Group Budget' proposal
(`BalanceKind` in the source's types module). -/
inductive BalanceKind where
  | Positive
  | Negative
  deriving DecidableEq

/-- One (account, amount) entry of a 'Funding Request' proposal
(`FundingRequestParameters`); the amount is a balance, modelled as Nat. -/
structure FundingRequestParameters where
  account : Nat
  amount : Nat
  deriving DecidableEq

/-- Modelled from the spec: payload of `CreateWorkingGroupLeadOpening`
(its type lives in the missing types module); only its `description` byte
field is inspected by the code under src/ (the weight estimator). -/
structure CreateOpeningParameters where
  description : List Nat
  deriving DecidableEq

/-- Modelled from the spec: the `ProposalDetails` tagged union (§3 of the
spec; the defining types module is not under src/). Constructors and the
payload components follow exactly their uses in lib.rs: byte blobs as
`List Nat`, balances and identities as `Nat`, untouched payloads as `Unit`.
`DecreaseWorkingGroupLeadStake` carries (worker, stake amount, group) of
which the validator reads the middle component; `EditBlogPost` carries a
post id and optional header/body blobs. -/
inductive ProposalDetails where
  | Signal (signal : List Nat)
  | RuntimeUpgrade (blob : List Nat)
  | FundingRequest (funding_requests : List FundingRequestParameters)
  | SetMaxValidatorCount (new_validator_count : Nat)
  | CreateWorkingGroupLeadOpening (opening_params : CreateOpeningParameters)
  | FillWorkingGroupLeadOpening (p : Unit)
  | UpdateWorkingGroupBudget (p : Unit)
  | DecreaseWorkingGroupLeadStake (worker : Nat) (stake_amount : Nat) (group : Nat)
  | SlashWorkingGroupLead (p : Unit)
  | SetWorkingGroupLeadReward (p : Unit)
  | TerminateWorkingGroupLead (p : Unit)
  | AmendConstitution (new_constitution : List Nat)
  | CancelWorkingGroupLeadOpening (p : Unit)
  | SetMembershipPrice (p : Unit)
  | SetCouncilBudgetIncrement (p : Unit)
  | SetCouncilorReward (p : Unit)
  | SetInitialInvitationBalance (p : Unit)
  | SetInitialInvitationCount (p : Unit)
  | SetMembershipLeadInvitationQuota (p : Unit)
  | SetReferralCut (p : Unit)
  | CreateBlogPost (header : List Nat) (body : List Nat)
  | EditBlogPost (post : Nat) (header : Option (List Nat)) (body : Option (List Nat))
  | LockBlogPost (p : Unit)
  | UnlockBlogPost (p : Unit)
  deriving DecidableEq

/-- Loop body of the `FundingRequest` arm of `ensure_details_checks`:
walks the requests in order with the set of already visited accounts
(the source's `BTreeSet` is modelled as the list of seen accounts;
only membership is observed, so the representation is equivalent). -/
def checkFundingRequests (visited : List Nat) :
    List FundingRequestParameters → Except Error Unit
  | [] => .ok ()
  | fr :: rest =>
    if fr.account ∈ visited then
      .error .InvalidFundingRequestProposalRepeatedAccount
    else if fr.amount = 0 then
      .error .InvalidFundingRequestProposalBalance
    else if ¬ fr.amount ≤ MAX_SPENDING_PROPOSAL_VALUE then
      .error .InvalidFundingRequestProposalBalance
    else
      checkFundingRequests (fr.account :: visited) rest

/-- The validator `ensure_details_checks` from the source.  The
`minimum_validator_count` argument is the staking subsystem's configured
minimum, read from external storage by the `SetMaxValidatorCount` arm
(the source's documented exception). Every `ensure!` that fails yields
the corresponding codex error; all arms without checks return `Ok`. -/
def ensure_details_checks (minimum_validator_count : Nat)
    (details : ProposalDetails) : Except Error Unit :=
  match details with
  | .Signal signal =>
    if signal = [] then .error .SignalProposalIsEmpty else .ok ()
  | .RuntimeUpgrade blob =>
    if blob = [] then .error .RuntimeProposalIsEmpty else .ok ()
  | .FundingRequest funding_requests =>
    if funding_requests = [] then
      .error .InvalidFundingRequestProposalNumberOfAccount
    else if ¬ funding_requests.length ≤ MAX_FUNDING_REQUEST_ACCOUNTS then
      .error .InvalidFundingRequestProposalNumberOfAccount
    else
      checkFundingRequests [] funding_requests
  | .SetMaxValidatorCount new_validator_count =>
    if ¬ new_validator_count ≥ minimum_validator_count then
      .error .InvalidValidatorCount
    else if ¬ new_validator_count ≤ MAX_VALIDATOR_COUNT then
      .error .InvalidValidatorCount
    else .ok ()
  | .CreateWorkingGroupLeadOpening _ => .ok ()
  | .FillWorkingGroupLeadOpening _ => .ok ()
  | .UpdateWorkingGroupBudget _ => .ok ()
  | .DecreaseWorkingGroupLeadStake _ stake_amount _ =>
    if stake_amount = 0 then .error .DecreasingStakeIsZero else .ok ()
  | .SlashWorkingGroupLead _ => .ok ()
  | .SetWorkingGroupLeadReward _ => .ok ()
  | .TerminateWorkingGroupLead _ => .ok ()
  | .AmendConstitution _ => .ok ()
  | .CancelWorkingGroupLeadOpening _ => .ok ()
  | .SetMembershipPrice _ => .ok ()
  | .SetCouncilBudgetIncrement _ => .ok ()
  | .SetCouncilorReward _ => .ok ()
  | .SetInitialInvitationBalance _ => .ok ()
  | .SetInitialInvitationCount _ => .ok ()
  | .SetMembershipLeadInvitationQuota _ => .ok ()
  | .SetReferralCut _ => .ok ()
  | .CreateBlogPost _ _ => .ok ()
  | .EditBlogPost _ _ _ => .ok ()
  | .LockBlogPost _ => .ok ()
  | .UnlockBlogPost _ => .ok ()

/-- The per-variant proposal-parameter configuration of the codex Trait:
one record per variant, fixed at configuration time.  The parameter
records themselves are opaque to this module, so their type is a type
parameter.  Field names follow the source's associated constants,
including the source's spelling of `EditBlogPostProoposalParamters`. -/
structure Registry (P : Type) where
  SignalProposalParameters : P
  RuntimeUpgradeProposalParameters : P
  FundingRequestProposalParameters : P
  SetMaxValidatorCountProposalParameters : P
  CreateWorkingGroupLeadOpeningProposalParameters : P
  FillWorkingGroupLeadOpeningProposalParameters : P
  UpdateWorkingGroupBudgetProposalParameters : P
  DecreaseWorkingGroupLeadStakeProposalParameters : P
  SlashWorkingGroupLeadProposalParameters : P
  SetWorkingGroupLeadRewardProposalParameters : P
  TerminateWorkingGroupLeadProposalParameters : P
  AmendConstitutionProposalParameters : P
  CancelWorkingGroupLeadOpeningProposalParameters : P
  SetMembershipPriceProposalParameters : P
  SetCouncilBudgetIncrementProposalParameters : P
  SetCouncilorRewardProposalParameters : P
  SetInitialInvitationBalanceProposalParameters : P
  SetInvitationCountProposalParameters : P
  SetMembershipLeadInvitationQuotaProposalParameters : P
  SetReferralCutProposalParameters : P
  CreateBlogPostProposalParameters : P
  EditBlogPostProoposalParamters : P
  LockBlogPostProposalParameters : P
  UnlockBlogPostProposalParameters : P

/-- The Parameter Registry lookup `get_proposal_parameters` from the
source: returns the proposal parameters according to the details variant,
with no default branch. -/
def get_proposal_parameters {P : Type} (reg : Registry P)
    (details : ProposalDetails) : P :=
  match details with
  | .Signal _ => reg.SignalProposalParameters
  | .RuntimeUpgrade _ => reg.RuntimeUpgradeProposalParameters
  | .FundingRequest _ => reg.FundingRequestProposalParameters
  | .SetMaxValidatorCount _ => reg.SetMaxValidatorCountProposalParameters
  | .FillWorkingGroupLeadOpening _ => reg.FillWorkingGroupLeadOpeningProposalParameters
  | .UpdateWorkingGroupBudget _ => reg.UpdateWorkingGroupBudgetProposalParameters
  | .DecreaseWorkingGroupLeadStake _ _ _ => reg.DecreaseWorkingGroupLeadStakeProposalParameters
  | .SlashWorkingGroupLead _ => reg.SlashWorkingGroupLeadProposalParameters
  | .SetWorkingGroupLeadReward _ => reg.SetWorkingGroupLeadRewardProposalParameters
  | .TerminateWorkingGroupLead _ => reg.TerminateWorkingGroupLeadProposalParameters
  | .CreateWorkingGroupLeadOpening _ => reg.CreateWorkingGroupLeadOpeningProposalParameters
  | .AmendConstitution _ => reg.AmendConstitutionProposalParameters
  | .SetMembershipPrice _ => reg.SetMembershipPriceProposalParameters
  | .CancelWorkingGroupLeadOpening _ => reg.CancelWorkingGroupLeadOpeningProposalParameters
  | .SetCouncilBudgetIncrement _ => reg.SetCouncilBudgetIncrementProposalParameters
  | .SetCouncilorReward _ => reg.SetCouncilorRewardProposalParameters
  | .SetInitialInvitationBalance _ => reg.SetInitialInvitationBalanceProposalParameters
  | .SetInitialInvitationCount _ => reg.SetInvitationCountProposalParameters
  | .SetMembershipLeadInvitationQuota _ => reg.SetMembershipLeadInvitationQuotaProposalParameters
  | .SetReferralCut _ => reg.SetReferralCutProposalParameters
  | .CreateBlogPost _ _ => reg.CreateBlogPostProposalParameters
  | .EditBlogPost _ _ _ => reg.EditBlogPostProoposalParamters
  | .LockBlogPost _ => reg.LockBlogPostProposalParameters
  | .UnlockBlogPost _ => reg.UnlockBlogPostProposalParameters

/-- Shared metadata of every proposal (`GeneralProposalParams`); the field
set follows its uses in lib.rs and §3 of the spec. -/
structure GeneralProposalParams where
  member_id : Nat
  title : List Nat
  description : List Nat
  staking_account_id : Option Nat
  exact_execution_block : Option Nat

/-- Saturating conversion of a length into a 32-bit weight argument
(the source's `.saturated_into()` on `usize`). -/
def sat32 (n : Nat) : Nat := min n (2 ^ 32 - 1)

/-- The codex `WeightInfo` trait: one benchmark-generated weight function
per proposal variant, each a pure function of the declared length
arguments.  Weights are modelled as Nat. -/
structure WeightInfo where
  create_proposal_signal : Nat → Nat → Nat → Nat
  create_proposal_runtime_upgrade : Nat → Nat → Nat → Nat
  create_proposal_funding_request : Nat → Nat
  create_proposal_set_max_validator_count : Nat → Nat
  create_proposal_create_working_group_lead_opening : Nat → Nat
  create_proposal_fill_working_group_lead_opening : Nat
  create_proposal_update_working_group_budget : Nat → Nat
  create_proposal_decrease_working_group_lead_stake : Nat → Nat → Nat
  create_proposal_slash_working_group_lead : Nat → Nat → Nat
  create_proposal_set_working_group_lead_reward : Nat → Nat
  create_proposal_terminate_working_group_lead : Nat
  create_proposal_amend_constitution : Nat → Nat → Nat → Nat
  create_proposal_cancel_working_group_lead_opening : Nat → Nat → Nat
  create_proposal_set_membership_price : Nat
  create_proposal_set_council_budget_increment : Nat
  create_proposal_set_councilor_reward : Nat → Nat
  create_proposal_set_initial_invitation_balance : Nat → Nat → Nat
  create_proposal_set_initial_invitation_count : Nat
  create_proposal_set_membership_lead_invitation_quota : Nat → Nat
  create_proposal_set_referral_cut : Nat → Nat
  create_proposal_create_blog_post : Nat → Nat → Nat → Nat → Nat
  create_proposal_edit_blog_post : Nat → Nat → Nat → Nat → Nat
  create_proposal_lock_blog_post : Nat → Nat
  create_proposal_unlock_blog_post : Nat

/-- The Weight Estimator `get_create_proposal_weight` from the source:
computes the creation weight from the title and description lengths and
the variant-specific payload lengths, saturating each length into `u32`. -/
def get_create_proposal_weight (w : WeightInfo)
    (general : GeneralProposalParams) (details : ProposalDetails) : Nat :=
  let title_length := general.title.length
  let description_length := general.description.length
  match details with
  | .Signal signal =>
    w.create_proposal_signal (sat32 signal.length)
      (sat32 title_length) (sat32 description_length)
  | .RuntimeUpgrade blob =>
    w.create_proposal_runtime_upgrade (sat32 blob.length)
      (sat32 title_length) (sat32 description_length)
  | .FundingRequest params =>
    w.create_proposal_funding_request (sat32 params.length)
  | .SetMaxValidatorCount _ =>
    w.create_proposal_set_max_validator_count (sat32 description_length)
  | .CreateWorkingGroupLeadOpening opening_params =>
    w.create_proposal_create_working_group_lead_opening
      (sat32 opening_params.description.length)
  | .FillWorkingGroupLeadOpening _ =>
    w.create_proposal_fill_working_group_lead_opening
  | .UpdateWorkingGroupBudget _ =>
    w.create_proposal_update_working_group_budget (sat32 description_length)
  | .DecreaseWorkingGroupLeadStake _ _ _ =>
    w.create_proposal_decrease_working_group_lead_stake
      (sat32 title_length) (sat32 description_length)
  | .SlashWorkingGroupLead _ =>
    w.create_proposal_slash_working_group_lead
      (sat32 title_length) (sat32 description_length)
  | .SetWorkingGroupLeadReward _ =>
    w.create_proposal_set_working_group_lead_reward (sat32 description_length)
  | .TerminateWorkingGroupLead _ =>
    w.create_proposal_terminate_working_group_lead
  | .AmendConstitution new_constitution =>
    w.create_proposal_amend_constitution (sat32 new_constitution.length)
      (sat32 title_length) (sat32 description_length)
  | .SetMembershipPrice _ =>
    w.create_proposal_set_membership_price
  | .CancelWorkingGroupLeadOpening _ =>
    w.create_proposal_cancel_working_group_lead_opening
      (sat32 title_length) (sat32 description_length)
  | .SetCouncilBudgetIncrement _ =>
    w.create_proposal_set_council_budget_increment
  | .SetCouncilorReward _ =>
    w.create_proposal_set_councilor_reward (sat32 title_length)
  | .SetInitialInvitationBalance _ =>
    w.create_proposal_set_initial_invitation_balance
      (sat32 title_length) (sat32 description_length)
  | .SetInitialInvitationCount _ =>
    w.create_proposal_set_initial_invitation_count
  | .SetMembershipLeadInvitationQuota _ =>
    w.create_proposal_set_membership_lead_invitation_quota (sat32 title_length)
  | .SetReferralCut _ =>
    w.create_proposal_set_referral_cut (sat32 title_length)
  | .CreateBlogPost header body =>
    w.create_proposal_create_blog_post (sat32 title_length)
      (sat32 description_length) (sat32 header.length) (sat32 body.length)
  | .EditBlogPost _ header body =>
    let header_len := (header.map List.length).getD 0
    let body_len := (body.map List.length).getD 0
    w.create_proposal_edit_blog_post (sat32 title_length)
      (sat32 description_length) (sat32 header_len) (sat32 body_len)
  | .LockBlogPost _ =>
    w.create_proposal_lock_blog_post (sat32 title_length)
  | .UnlockBlogPost _ =>
    w.create_proposal_unlock_blog_post

/-- The tag (discriminant) of a `ProposalDetails` value: one case per
variant of the closed catalogue. -/
inductive ProposalTag where
  | Signal
  | RuntimeUpgrade
  | FundingRequest
  | SetMaxValidatorCount
  | CreateWorkingGroupLeadOpening
  | FillWorkingGroupLeadOpening
  | UpdateWorkingGroupBudget
  | DecreaseWorkingGroupLeadStake
  | SlashWorkingGroupLead
  | SetWorkingGroupLeadReward
  | TerminateWorkingGroupLead
  | AmendConstitution
  | CancelWorkingGroupLeadOpening
  | SetMembershipPrice
  | SetCouncilBudgetIncrement
  | SetCouncilorReward
  | SetInitialInvitationBalance
  | SetInitialInvitationCount
  | SetMembershipLeadInvitationQuota
  | SetReferralCut
  | CreateBlogPost
  | EditBlogPost
  | LockBlogPost
  | UnlockBlogPost
  deriving DecidableEq

/-- Discriminant extraction: forgets the payload of a variant. -/
def variantTag : ProposalDetails → ProposalTag
  | .Signal _ => .Signal
  | .RuntimeUpgrade _ => .RuntimeUpgrade
  | .FundingRequest _ => .FundingRequest
  | .SetMaxValidatorCount _ => .SetMaxValidatorCount
  | .CreateWorkingGroupLeadOpening _ => .CreateWorkingGroupLeadOpening
  | .FillWorkingGroupLeadOpening _ => .FillWorkingGroupLeadOpening
  | .UpdateWorkingGroupBudget _ => .UpdateWorkingGroupBudget
  | .DecreaseWorkingGroupLeadStake _ _ _ => .DecreaseWorkingGroupLeadStake
  | .SlashWorkingGroupLead _ => .SlashWorkingGroupLead
  | .SetWorkingGroupLeadReward _ => .SetWorkingGroupLeadReward
  | .TerminateWorkingGroupLead _ => .TerminateWorkingGroupLead
  | .AmendConstitution _ => .AmendConstitution
  | .CancelWorkingGroupLeadOpening _ => .CancelWorkingGroupLeadOpening
  | .SetMembershipPrice _ => .SetMembershipPrice
  | .SetCouncilBudgetIncrement _ => .SetCouncilBudgetIncrement
  | .SetCouncilorReward _ => .SetCouncilorReward
  | .SetInitialInvitationBalance _ => .SetInitialInvitationBalance
  | .SetInitialInvitationCount _ => .SetInitialInvitationCount
  | .SetMembershipLeadInvitationQuota _ => .SetMembershipLeadInvitationQuota
  | .SetReferralCut _ => .SetReferralCut
  | .CreateBlogPost _ _ => .CreateBlogPost
  | .EditBlogPost _ _ _ => .EditBlogPost
  | .LockBlogPost _ => .LockBlogPost
  | .UnlockBlogPost _ => .UnlockBlogPost

/-- Modelled from the spec: the Parameter Registry contract of §4.2, a
total function from the variant tag alone to the configured parameter
record, with no case omitted.  Compared against the source's
`get_proposal_parameters` in the totality theorem. -/
def paramsByTag {P : Type} (reg : Registry P) : ProposalTag → P
  | .Signal => reg.SignalProposalParameters
  | .RuntimeUpgrade => reg.RuntimeUpgradeProposalParameters
  | .FundingRequest => reg.FundingRequestProposalParameters
  | .SetMaxValidatorCount => reg.SetMaxValidatorCountProposalParameters
  | .CreateWorkingGroupLeadOpening => reg.CreateWorkingGroupLeadOpeningProposalParameters
  | .FillWorkingGroupLeadOpening => reg.FillWorkingGroupLeadOpeningProposalParameters
  | .UpdateWorkingGroupBudget => reg.UpdateWorkingGroupBudgetProposalParameters
  | .DecreaseWorkingGroupLeadStake => reg.DecreaseWorkingGroupLeadStakeProposalParameters
  | .SlashWorkingGroupLead => reg.SlashWorkingGroupLeadProposalParameters
  | .SetWorkingGroupLeadReward => reg.SetWorkingGroupLeadRewardProposalParameters
  | .TerminateWorkingGroupLead => reg.TerminateWorkingGroupLeadProposalParameters
  | .AmendConstitution => reg.AmendConstitutionProposalParameters
  | .CancelWorkingGroupLeadOpening => reg.CancelWorkingGroupLeadOpeningProposalParameters
  | .SetMembershipPrice => reg.SetMembershipPriceProposalParameters
  | .SetCouncilBudgetIncrement => reg.SetCouncilBudgetIncrementProposalParameters
  | .SetCouncilorReward => reg.SetCouncilorRewardProposalParameters
  | .SetInitialInvitationBalance => reg.SetInitialInvitationBalanceProposalParameters
  | .SetInitialInvitationCount => reg.SetInvitationCountProposalParameters
  | .SetMembershipLeadInvitationQuota => reg.SetMembershipLeadInvitationQuotaProposalParameters
  | .SetReferralCut => reg.SetReferralCutProposalParameters
  | .CreateBlogPost => reg.CreateBlogPostProposalParameters
  | .EditBlogPost => reg.EditBlogPostProoposalParamters
  | .LockBlogPost => reg.LockBlogPostProposalParameters
  | .UnlockBlogPost => reg.UnlockBlogPostProposalParameters

/-- Lengths of the variable-length payload fields of a variant, as a pair
(primary, secondary); variants without such fields contribute zeros. -/
def payloadLens : ProposalDetails → Nat × Nat
  | .Signal signal => (signal.length, 0)
  | .RuntimeUpgrade blob => (blob.length, 0)
  | .FundingRequest params => (params.length, 0)
  | .SetMaxValidatorCount _ => (0, 0)
  | .CreateWorkingGroupLeadOpening opening_params => (opening_params.description.length, 0)
  | .FillWorkingGroupLeadOpening _ => (0, 0)
  | .UpdateWorkingGroupBudget _ => (0, 0)
  | .DecreaseWorkingGroupLeadStake _ _ _ => (0, 0)
  | .SlashWorkingGroupLead _ => (0, 0)
  | .SetWorkingGroupLeadReward _ => (0, 0)
  | .TerminateWorkingGroupLead _ => (0, 0)
  | .AmendConstitution new_constitution => (new_constitution.length, 0)
  | .CancelWorkingGroupLeadOpening _ => (0, 0)
  | .SetMembershipPrice _ => (0, 0)
  | .SetCouncilBudgetIncrement _ => (0, 0)
  | .SetCouncilorReward _ => (0, 0)
  | .SetInitialInvitationBalance _ => (0, 0)
  | .SetInitialInvitationCount _ => (0, 0)
  | .SetMembershipLeadInvitationQuota _ => (0, 0)
  | .SetReferralCut _ => (0, 0)
  | .CreateBlogPost header body => (header.length, body.length)
  | .EditBlogPost _ header body =>
    ((header.map List.length).getD 0, (body.map List.length).getD 0)
  | .LockBlogPost _ => (0, 0)
  | .UnlockBlogPost _ => (0, 0)

/-- Modelled from the spec: the Weight Estimator contract of §4.3, a total
function of the variant tag, the shared title and description lengths and
the variant's payload lengths, with no case omitted.  Compared against the
source's `get_create_proposal_weight` in the totality theorem. -/
def weightByTag (w : WeightInfo) (t d : Nat) :
    ProposalTag → Nat × Nat → Nat
  | .Signal, lens => w.create_proposal_signal (sat32 lens.1) t d
  | .RuntimeUpgrade, lens => w.create_proposal_runtime_upgrade (sat32 lens.1) t d
  | .FundingRequest, lens => w.create_proposal_funding_request (sat32 lens.1)
  | .SetMaxValidatorCount, _ => w.create_proposal_set_max_validator_count d
  | .CreateWorkingGroupLeadOpening, lens =>
    w.create_proposal_create_working_group_lead_opening (sat32 lens.1)
  | .FillWorkingGroupLeadOpening, _ => w.create_proposal_fill_working_group_lead_opening
  | .UpdateWorkingGroupBudget, _ => w.create_proposal_update_working_group_budget d
  | .DecreaseWorkingGroupLeadStake, _ =>
    w.create_proposal_decrease_working_group_lead_stake t d
  | .SlashWorkingGroupLead, _ => w.create_proposal_slash_working_group_lead t d
  | .SetWorkingGroupLeadReward, _ => w.create_proposal_set_working_group_lead_reward d
  | .TerminateWorkingGroupLead, _ => w.create_proposal_terminate_working_group_lead
  | .AmendConstitution, lens => w.create_proposal_amend_constitution (sat32 lens.1) t d
  | .CancelWorkingGroupLeadOpening, _ =>
    w.create_proposal_cancel_working_group_lead_opening t d
  | .SetMembershipPrice, _ => w.create_proposal_set_membership_price
  | .SetCouncilBudgetIncrement, _ => w.create_proposal_set_council_budget_increment
  | .SetCouncilorReward, _ => w.create_proposal_set_councilor_reward t
  | .SetInitialInvitationBalance, _ =>
    w.create_proposal_set_initial_invitation_balance t d
  | .SetInitialInvitationCount, _ => w.create_proposal_set_initial_invitation_count
  | .SetMembershipLeadInvitationQuota, _ =>
    w.create_proposal_set_membership_lead_invitation_quota t
  | .SetReferralCut, _ => w.create_proposal_set_referral_cut t
  | .CreateBlogPost, lens =>
    w.create_proposal_create_blog_post t d (sat32 lens.1) (sat32 lens.2)
  | .EditBlogPost, lens =>
    w.create_proposal_edit_blog_post t d (sat32 lens.1) (sat32 lens.2)
  | .LockBlogPost, _ => w.create_proposal_lock_blog_post t
  | .UnlockBlogPost, _ => w.create_proposal_unlock_blog_post

/-- Modelled from the spec: frame_system's `ensure_root`, which accepts
exactly the root origin and rejects any other origin with the
dispatch-level `BadOrigin` error. -/
def ensure_root (origin : Origin) : Except DispatchError Unit :=
  match origin with
  | .Root => .ok ()
  | .Signed _ => .error .BadOrigin
  | .NoOrigin => .error .BadOrigin

/-- Saturation bound of the `u128` runtime balance type. -/
def U128_MAX : Nat := 2 ^ 128 - 1

/-- Saturating addition on balances (`saturating_add` on `u128`). -/
def saturating_add (a b : Nat) : Nat := min (a + b) U128_MAX

/-- The balances read and written by `update_working_group_budget`: the
council treasury budget and the budget of each working group.  The
working-group budgets and the council budget live in external modules and
are accessed through the narrow get/set capabilities below (§6 of the
spec). -/
structure BudgetState where
  councilBudget : Nat
  forumBudget : Nat
  storageBudget : Nat
  contentBudget : Nat
  membershipBudget : Nat
  deriving DecidableEq

/-- Modelled from the spec: the codex Trait's `get_working_group_budget`
capability, reading the named group's budget. -/
def get_working_group_budget (s : BudgetState) : WorkingGroup → Nat
  | .Forum => s.forumBudget
  | .Storage => s.storageBudget
  | .Content => s.contentBudget
  | .Membership => s.membershipBudget

/-- Modelled from the spec: the codex Trait's `set_working_group_budget`
capability, writing the named group's budget. -/
def set_working_group_budget (s : BudgetState) (g : WorkingGroup) (b : Nat) :
    BudgetState :=
  match g with
  | .Forum => { s with forumBudget := b }
  | .Storage => { s with storageBudget := b }
  | .Content => { s with contentBudget := b }
  | .Membership => { s with membershipBudget := b }

/-- Modelled from the spec: the council treasury's `set_budget` (§6); the
executor invokes it with the root origin, under which it succeeds and
stores the new council budget. -/
def councilSetBudget (s : BudgetState) (b : Nat) : BudgetState :=
  { s with councilBudget := b }

/-- The extrinsic `update_working_group_budget` from the source: after the
root check it reads the group's budget and the council budget, and moves
the amount in the direction given by the balance kind, with an `ensure!`
against insufficient funds on the paying side and a saturating addition on
the receiving side.  The dispatch result is paired with the resulting
state; every `ensure!` precedes the first write, so on an error the state
is the unchanged input state. -/
def update_working_group_budget (origin : Origin) (s : BudgetState)
    (working_group : WorkingGroup) (amount : Nat)
    (balance_kind : BalanceKind) : Except DispatchError Unit × BudgetState :=
  match ensure_root origin with
  | .error e => (.error e, s)
  | .ok _ =>
    let wg_budget := get_working_group_budget s working_group
    let current_budget := s.councilBudget
    match balance_kind with
    | .Positive =>
      if amount ≤ current_budget then
        (.ok (), councilSetBudget
          (set_working_group_budget s working_group (saturating_add wg_budget amount))
          (current_budget - amount))
      else (.error (.Module .InsufficientFundsForBudgetUpdate), s)
    | .Negative =>
      if amount ≤ wg_budget then
        (.ok (), councilSetBudget
          (set_working_group_budget s working_group (wg_budget - amount))
          (saturating_add current_budget amount))
      else (.error (.Module .InsufficientFundsForBudgetUpdate), s)

/-- The extrinsic `execute_signal_proposal` from the source: requires the
root origin and is otherwise a deliberate no-op execution stub. -/
def execute_signal_proposal (origin : Origin) (signal : List Nat) :
    Except DispatchError Unit :=
  match ensure_root origin with
  | .error e => .error e
  | .ok _ =>
    let _ := signal
    .ok ()

/-- The extrinsic `execute_runtime_upgrade_proposal` from the source:
requires the root origin and then installs the new code via frame's
`set_code` (modelled from the spec: the host stores the provided code
bytes, §4.6).  The dispatch result is paired with the stored runtime
code; the root check precedes the write, so on rejection the code is
unchanged. -/
def execute_runtime_upgrade_proposal (origin : Origin)
    (code_storage : List Nat) (wasm : List Nat) :
    Except DispatchError Unit × List Nat :=
  match ensure_root origin with
  | .error e => (.error e, code_storage)
  | .ok _ => (.ok (), wasm)

/-- A substrate storage map keyed by `Nat`, as an association list.
Removal deletes every binding of the key and is a no-op on absent keys. -/
def mapRemove {α : Type} (m : List (Nat × α)) (k : Nat) : List (Nat × α) :=
  m.filter (fun kv => kv.1 != k)

/-- Lookup in a storage map: the first binding of the key, if any. -/
def mapGet {α : Type} (m : List (Nat × α)) (k : Nat) : Option α :=
  (m.find? (fun kv => kv.1 == k)).map (fun kv => kv.2)

/-- Lookup through a storage getter with a value-query default: an absent
key yields the default value (the source's `thread_id_by_proposal_id`
getter returns `T::ThreadId`'s default, modelled as 0, on absent keys). -/
def mapGetD {α : Type} (m : List (Nat × α)) (k : Nat) (d : α) : α :=
  (mapGet m k).getD d

/-- Insertion into a storage map, overwriting any previous binding. -/
def mapInsert {α : Type} (m : List (Nat × α)) (k : Nat) (v : α) :
    List (Nat × α) :=
  (k, v) :: mapRemove m k

/-- Prefix removal over the double-keyed post storage: deletes every post
binding whose first key is the given thread id (the source's
`PostThreadIdByPostId::remove_prefix(thread_id)`). -/
def removePostsOfThread (posts : List ((Nat × Nat) × Nat)) (t : Nat) :
    List ((Nat × Nat) × Nat) :=
  posts.filter (fun kv => kv.1.1 != t)

/-- The storage touched by proposal creation and removal:
`ThreadIdByProposalId` and `ProposalDetailsByProposalId` are the codex's
own maps from `decl_storage!`; `threadById` and `postThreadIdByPostId`
are the discussion module's thread and post stores, modelled from the
spec (§6) with opaque `Nat` record values, the posts double-keyed by
(thread id, post id). -/
structure SysState where
  threadIdByProposalId : List (Nat × Nat)
  proposalDetailsByProposalId : List (Nat × ProposalDetails)
  threadById : List (Nat × Nat)
  postThreadIdByPostId : List ((Nat × Nat) × Nat)
  deriving DecidableEq

/-- The Cleanup Handler `proposal_removed` from the source, with the
source's statement order preserved: both codex mappings are removed
first, the thread id is then read back through the storage getter — which
at that point yields the map's default thread id 0, the mapping having
just been removed — and the thread record and posts under that id are
removed. -/
def proposal_removed (s : SysState) (proposal_id : Nat) : SysState :=
  let s1 : SysState :=
    { s with
      threadIdByProposalId := mapRemove s.threadIdByProposalId proposal_id,
      proposalDetailsByProposalId :=
        mapRemove s.proposalDetailsByProposalId proposal_id }
  let thread_id := mapGetD s1.threadIdByProposalId proposal_id 0
  { s1 with
    threadById := mapRemove s1.threadById thread_id,
    postThreadIdByPostId := removePostsOfThread s1.postThreadIdByPostId thread_id }

/-- The engine's `ProposalCreationParameters` record assembled by
`create_proposal`, with field names from the source. -/
structure ProposalCreationParameters (P : Type) where
  account_id : Nat
  proposer_id : Nat
  proposal_parameters : P
  title : List Nat
  description : List Nat
  staking_account_id : Option Nat
  encoded_dispatchable_call_code : List Nat
  exact_execution_block : Option Nat

/-- Modelled from the spec: the external collaborators invoked by
`create_proposal` (§6) — the membership origin validator, the engine's
admission validation and proposal creation, the discussion subsystem's
thread-mode check and thread creation (always invoked with the open
mode), and the call encoder.  Each is an arbitrary function of the
appropriate shape; the stateful ones take and return the whole system
state, and an error result means that collaborator committed nothing. -/
structure Externals (P : Type) where
  ensure_member_controller_account_origin :
    Origin → Nat → Except DispatchError Nat
  ensure_create_proposal_parameters_are_valid :
    P → List Nat → List Nat → Option Nat → Option Nat →
      Except DispatchError Unit
  ensure_can_create_thread : Except DispatchError Unit
  create_thread : SysState → Nat → Except DispatchError (Nat × SysState)
  engine_create_proposal :
    SysState → ProposalCreationParameters P →
      Except DispatchError (Nat × SysState)
  encode_proposal : ProposalDetails → List Nat

/-- The extrinsic `create_proposal` from the source: validates the
details, resolves the parameters and the encoded call, authenticates the
proposer, asks the engine to validate the general parameters, opens a
discussion thread, asks the engine to admit the proposal, and finally
writes the two codex mappings.  The dispatch result is paired with the
resulting state; a failure returns the state committed so far (there is
no rollback across steps, so a thread already created survives a later
engine failure). -/
def create_proposal {P : Type} (reg : Registry P) (ext : Externals P)
    (minimum_validator_count : Nat) (s : SysState) (origin : Origin)
    (general_proposal_parameters : GeneralProposalParams)
    (proposal_details : ProposalDetails) :
    Except DispatchError Unit × SysState :=
  match ensure_details_checks minimum_validator_count proposal_details with
  | .error e => (.error (.Module e), s)
  | .ok _ =>
    let proposal_parameters := get_proposal_parameters reg proposal_details
    let proposal_code := ext.encode_proposal proposal_details
    match ext.ensure_member_controller_account_origin origin
        general_proposal_parameters.member_id with
    | .error e => (.error e, s)
    | .ok account_id =>
      match ext.ensure_create_proposal_parameters_are_valid
          proposal_parameters
          general_proposal_parameters.title
          general_proposal_parameters.description
          general_proposal_parameters.staking_account_id
          general_proposal_parameters.exact_execution_block with
      | .error e => (.error e, s)
      | .ok _ =>
        match ext.ensure_can_create_thread with
        | .error e => (.error e, s)
        | .ok _ =>
          match ext.create_thread s general_proposal_parameters.member_id with
          | .error e => (.error e, s)
          | .ok (discussion_thread_id, s1) =>
            match ext.engine_create_proposal s1
                ⟨account_id, general_proposal_parameters.member_id,
                 proposal_parameters, general_proposal_parameters.title,
                 general_proposal_parameters.description,
                 general_proposal_parameters.staking_account_id,
                 proposal_code,
                 general_proposal_parameters.exact_execution_block⟩ with
            | .error e => (.error e, s1)
            | .ok (proposal_id, s2) =>
              (.ok (), { s2 with
                threadIdByProposalId :=
                  mapInsert s2.threadIdByProposalId proposal_id discussion_thread_id,
                proposalDetailsByProposalId :=
                  mapInsert s2.proposalDetailsByProposalId proposal_id proposal_details })

/-- A parameter registry whose records are all the opaque value 0, for
concrete evaluation. -/
def zeroRegistry : Registry Nat :=
  ⟨0, 0, 0, 0, 0, 0, 0, 0, 0, 0, 0, 0, 0, 0, 0, 0, 0, 0, 0, 0, 0, 0, 0, 0⟩

/-- Concrete collaborators that accept everything and mint identity 1,
for concrete evaluation. -/
def okExternals : Externals Nat where
  ensure_member_controller_account_origin := fun _ _ => .ok 0
  ensure_create_proposal_parameters_are_valid := fun _ _ _ _ _ => .ok ()
  ensure_can_create_thread := .ok ()
  create_thread := fun s _ => .ok (1, s)
  engine_create_proposal := fun s _ => .ok (1, s)
  encode_proposal := fun _ => []

/-- The empty storage state. -/
def emptySysState : SysState := ⟨[], [], [], []⟩

/-- The funding-request loop accepts exactly when the accounts of the list
are pairwise distinct and disjoint from the already visited set and every
amount is nonzero and within the cap. -/
theorem checkFundingRequests_ok_iff (l : List FundingRequestParameters) :
    ∀ v : List Nat,
    checkFundingRequests v l = .ok () ↔
      ((l.map (·.account)).Nodup ∧ (∀ a ∈ l.map (·.account), a ∉ v)) ∧
      (∀ fr ∈ l, fr.amount ≠ 0 ∧ fr.amount ≤ MAX_SPENDING_PROPOSAL_VALUE) := by
  induction l with
  | nil =>
    intro v
    simp [checkFundingRequests]
  | cons fr rest ih =>
    intro v
    unfold checkFundingRequests
    by_cases hmem : fr.account ∈ v
    · rw [if_pos hmem]
      constructor
      · intro h; exact Except.noConfusion h
      · rintro ⟨⟨_, hdisj⟩, _⟩
        exact absurd hmem (hdisj fr.account (by simp))
    · rw [if_neg hmem]
      by_cases h0 : fr.amount = 0
      · rw [if_pos h0]
        constructor
        · intro h; exact Except.noConfusion h
        · rintro ⟨_, hval⟩
          exact absurd h0 (hval fr (by simp)).1
      · rw [if_neg h0]
        by_cases hmax : fr.amount ≤ MAX_SPENDING_PROPOSAL_VALUE
        · rw [if_neg (not_not_intro hmax), ih (fr.account :: v)]
          constructor
          · rintro ⟨⟨hnd, hdisj⟩, hval⟩
            refine ⟨⟨?_, ?_⟩, ?_⟩
            · rw [List.map_cons, List.nodup_cons]
              exact ⟨fun hin => (hdisj fr.account hin) (List.mem_cons_self _ _), hnd⟩
            · intro a ha
              rcases List.mem_cons.mp ha with rfl | ha'
              · exact hmem
              · exact fun hv => (hdisj a ha') (List.mem_cons_of_mem _ hv)
            · intro x hx
              rcases List.mem_cons.mp hx with rfl | hx'
              · exact ⟨h0, hmax⟩
              · exact hval x hx'
          · rintro ⟨⟨hndc, hdisjc⟩, hvalc⟩
            rw [List.map_cons, List.nodup_cons] at hndc
            refine ⟨⟨hndc.2, ?_⟩, ?_⟩
            · intro a ha hv
              rcases List.mem_cons.mp hv with rfl | hv'
              · exact hndc.1 ha
              · exact (hdisjc a (List.mem_cons_of_mem _ ha)) hv'
            · exact fun x hx => hvalc x (List.mem_cons_of_mem _ hx)
        · rw [if_pos hmax]
          constructor
          · intro h; exact Except.noConfusion h
          · rintro ⟨_, hval⟩
            exact absurd (hval fr (by simp)).2 hmax

/-- When every amount of the list is valid, a violated distinctness
condition makes the funding-request loop fail with the repeated-account
error: the amount checks of every prefix pass, so the first repeated
account is what stops the loop. -/
theorem checkFundingRequests_dup (l : List FundingRequestParameters) :
    ∀ v : List Nat,
    (∀ fr ∈ l, fr.amount ≠ 0 ∧ fr.amount ≤ MAX_SPENDING_PROPOSAL_VALUE) →
    ¬ ((l.map (·.account)).Nodup ∧ (∀ a ∈ l.map (·.account), a ∉ v)) →
    checkFundingRequests v l = .error .InvalidFundingRequestProposalRepeatedAccount := by
  induction l with
  | nil =>
    intro v _ hneg
    exact absurd ⟨List.nodup_nil, by simp⟩ hneg
  | cons fr rest ih =>
    intro v hval hneg
    unfold checkFundingRequests
    by_cases hmem : fr.account ∈ v
    · rw [if_pos hmem]
    · rw [if_neg hmem, if_neg (hval fr (by simp)).1,
        if_neg (not_not_intro (hval fr (by simp)).2)]
      refine ih (fr.account :: v) (fun x hx => hval x (List.mem_cons_of_mem _ hx)) ?_
      rintro ⟨hnd, hdisj⟩
      apply hneg
      refine ⟨?_, ?_⟩
      · rw [List.map_cons, List.nodup_cons]
        exact ⟨fun hin => (hdisj fr.account hin) (List.mem_cons_self _ _), hnd⟩
      · intro a ha
        rcases List.mem_cons.mp ha with rfl | ha'
        · exact hmem
        · exact fun hv => (hdisj a ha') (List.mem_cons_of_mem _ hv)

/-- C3 (counterexample): the funding-request list `[(account 1, amount 0),
(account 1, amount 1)]` contains a duplicate account, yet validation
rejects it with `InvalidFundingRequestProposalBalance`, not with
`InvalidFundingRequestProposalRepeatedAccount`: the zero amount of the
first entry is checked before the duplicate occurrence is reached. -/
theorem C3_duplicate_error_counterexample :
    ensure_details_checks 0 (.FundingRequest [⟨1, 0⟩, ⟨1, 1⟩]) =
      .error .InvalidFundingRequestProposalBalance ∧
    ensure_details_checks 0 (.FundingRequest [⟨1, 0⟩, ⟨1, 1⟩]) ≠
      .error .InvalidFundingRequestProposalRepeatedAccount := by
  decide

/-- C3 (amended): funding-request validation accepts exactly the non-empty
lists of length at most 100 whose accounts are pairwise distinct and whose
amounts are all nonzero and at most 5,000,000.  A list with a duplicate
account is always rejected; it is rejected with
`InvalidFundingRequestProposalRepeatedAccount` when its length is at most
100 and all its amounts are valid (an invalid amount occurring before the
duplicate surfaces `InvalidFundingRequestProposalBalance` instead).  A
list of length 101 is rejected with
`InvalidFundingRequestProposalNumberOfAccount`. -/
theorem C3_funding_request_validation (m : Nat) (l : List FundingRequestParameters) :
    (ensure_details_checks m (.FundingRequest l) = .ok () ↔
      l ≠ [] ∧ l.length ≤ 100 ∧ (l.map (·.account)).Nodup ∧
      ∀ fr ∈ l, fr.amount ≠ 0 ∧ fr.amount ≤ 5000000) ∧
    (¬ (l.map (·.account)).Nodup →
      ensure_details_checks m (.FundingRequest l) ≠ .ok ()) ∧
    (¬ (l.map (·.account)).Nodup → l.length ≤ 100 →
      (∀ fr ∈ l, fr.amount ≠ 0 ∧ fr.amount ≤ 5000000) →
      ensure_details_checks m (.FundingRequest l) =
        .error .InvalidFundingRequestProposalRepeatedAccount) ∧
    (l.length = 101 →
      ensure_details_checks m (.FundingRequest l) =
        .error .InvalidFundingRequestProposalNumberOfAccount) := by
  have hmain : ensure_details_checks m (.FundingRequest l) = .ok () ↔
      l ≠ [] ∧ l.length ≤ 100 ∧ (l.map (·.account)).Nodup ∧
      ∀ fr ∈ l, fr.amount ≠ 0 ∧ fr.amount ≤ 5000000 := by
    simp only [ensure_details_checks, MAX_FUNDING_REQUEST_ACCOUNTS]
    by_cases hnil : l = []
    · rw [if_pos hnil]
      simp [hnil]
    · rw [if_neg hnil]
      by_cases hlen : l.length ≤ 100
      · rw [if_neg (not_not_intro hlen), checkFundingRequests_ok_iff l []]
        unfold MAX_SPENDING_PROPOSAL_VALUE
        simp only [List.not_mem_nil, not_false_iff, implies_true, and_true]
        constructor
        · rintro ⟨hnd, hval⟩
          exact ⟨hnil, hlen, hnd, hval⟩
        · rintro ⟨_, _, hnd, hval⟩
          exact ⟨hnd, hval⟩
      · rw [if_pos hlen]
        exact iff_of_false (fun h => Except.noConfusion h) (fun h => hlen h.2.1)
  refine ⟨hmain, ?_, ?_, ?_⟩
  · intro hdup hok
    exact hdup (hmain.mp hok).2.2.1
  · intro hdup hlen hval
    have hnil : l ≠ [] := by
      rintro rfl
      exact hdup (by simp)
    simp only [ensure_details_checks, MAX_FUNDING_REQUEST_ACCOUNTS]
    rw [if_neg hnil, if_neg (not_not_intro hlen)]
    exact checkFundingRequests_dup l [] hval (fun h => hdup h.1)
  · intro h101
    have hnil : l ≠ [] := by
      rintro rfl
      simp at h101
    simp only [ensure_details_checks, MAX_FUNDING_REQUEST_ACCOUNTS]
    rw [if_neg hnil, if_pos (by rw [h101]; decide)]

/-- C3 (witness): a concrete duplicate with valid amounts is rejected with
the repeated-account error, and a concrete length-101 list is rejected
with the number-of-accounts error. -/
theorem C3_funding_request_validation_witness :
    ensure_details_checks 0 (.FundingRequest [⟨1, 1⟩, ⟨1, 1⟩]) =
      .error .InvalidFundingRequestProposalRepeatedAccount ∧
    ensure_details_checks 0 (.FundingRequest (List.replicate 101 ⟨0, 1⟩)) =
      .error .InvalidFundingRequestProposalNumberOfAccount :=
  ⟨(C3_funding_request_validation 0 [⟨1, 1⟩, ⟨1, 1⟩]).2.2.1
      (by decide) (by decide) (by decide),
   (C3_funding_request_validation 0 (List.replicate 101 ⟨0, 1⟩)).2.2.2
      (by simp)⟩

/-- C4 (counterexample): with the staking subsystem's minimum validator
count configured to 101, the payload value 101 equals the configured
minimum yet is rejected (it exceeds the fixed ceiling of 100), so the
claim's "a value equal to the configured minimum is accepted" fails. -/
theorem C4_minimum_above_ceiling_counterexample :
    ensure_details_checks 101 (.SetMaxValidatorCount 101) =
      .error .InvalidValidatorCount ∧
    ensure_details_checks 101 (.SetMaxValidatorCount 101) ≠ .ok () := by
  decide

/-- C4 (amended): `SetMaxValidatorCount` validation accepts exactly the
values between the staking subsystem's configured minimum and 100, and
rejects all others with `InvalidValidatorCount`; in particular, provided
the configured minimum is at most 100, the minimum itself and 100 are
accepted; for a positive configured minimum the value one below it is
rejected; and 101 is always rejected. -/
theorem C4_set_max_validator_count (m v : Nat) :
    (ensure_details_checks m (.SetMaxValidatorCount v) = .ok () ↔
      m ≤ v ∧ v ≤ 100) ∧
    (¬ (m ≤ v ∧ v ≤ 100) →
      ensure_details_checks m (.SetMaxValidatorCount v) =
        .error .InvalidValidatorCount) ∧
    (m ≤ 100 → ensure_details_checks m (.SetMaxValidatorCount m) = .ok ()) ∧
    (1 ≤ m → ensure_details_checks m (.SetMaxValidatorCount (m - 1)) =
      .error .InvalidValidatorCount) ∧
    (m ≤ 100 → ensure_details_checks m (.SetMaxValidatorCount 100) = .ok ()) ∧
    ensure_details_checks m (.SetMaxValidatorCount 101) =
      .error .InvalidValidatorCount := by
  have hmain : ∀ w, ensure_details_checks m (.SetMaxValidatorCount w) = .ok () ↔
      m ≤ w ∧ w ≤ 100 := by
    intro w
    simp only [ensure_details_checks, MAX_VALIDATOR_COUNT]
    by_cases h1 : w ≥ m
    · by_cases h2 : w ≤ 100
      · rw [if_neg (not_not_intro h1), if_neg (not_not_intro h2)]
        exact iff_of_true rfl ⟨h1, h2⟩
      · rw [if_neg (not_not_intro h1), if_pos h2]
        exact iff_of_false (fun h => Except.noConfusion h) (fun h => h2 h.2)
    · rw [if_pos h1]
      exact iff_of_false (fun h => Except.noConfusion h) (fun h => h1 h.1)
  have herr : ∀ w, ¬ (m ≤ w ∧ w ≤ 100) →
      ensure_details_checks m (.SetMaxValidatorCount w) =
        .error .InvalidValidatorCount := by
    intro w hneg
    simp only [ensure_details_checks, MAX_VALIDATOR_COUNT]
    by_cases h1 : w ≥ m
    · rw [if_neg (not_not_intro h1), if_pos (fun h2 => hneg ⟨h1, h2⟩)]
    · rw [if_pos h1]
  exact ⟨hmain v, herr v,
    fun hm => (hmain m).mpr ⟨le_rfl, hm⟩,
    fun h1 => herr (m - 1) (by omega),
    fun hm => (hmain 100).mpr ⟨hm, le_rfl⟩,
    herr 101 (by omega)⟩

/-- C4 (witness): with the configured minimum 4, the value 4 (the minimum)
and the value 100 are accepted and the value 3 (one below) is rejected. -/
theorem C4_set_max_validator_count_witness :
    ensure_details_checks 4 (.SetMaxValidatorCount 4) = .ok () ∧
    ensure_details_checks 4 (.SetMaxValidatorCount 3) =
      .error .InvalidValidatorCount ∧
    ensure_details_checks 4 (.SetMaxValidatorCount 100) = .ok () :=
  ⟨(C4_set_max_validator_count 4 0).2.2.1 (by decide),
   (C4_set_max_validator_count 4 0).2.2.2.1 (by decide),
   (C4_set_max_validator_count 4 0).2.2.2.2.1 (by decide)⟩

/-- C5: `Signal` and `RuntimeUpgrade` validation rejects exactly the empty
byte sequence, with `SignalProposalIsEmpty` and `RuntimeProposalIsEmpty`
respectively, and accepts every non-empty byte sequence. -/
theorem C5_signal_runtime_upgrade_nonempty (m : Nat) (b : List Nat) :
    (ensure_details_checks m (.Signal b) = .ok () ↔ b ≠ []) ∧
    (b = [] → ensure_details_checks m (.Signal b) =
      .error .SignalProposalIsEmpty) ∧
    (ensure_details_checks m (.RuntimeUpgrade b) = .ok () ↔ b ≠ []) ∧
    (b = [] → ensure_details_checks m (.RuntimeUpgrade b) =
      .error .RuntimeProposalIsEmpty) := by
  simp only [ensure_details_checks]
  by_cases h : b = []
  · simp [h]
  · simp [h]

/-- C5 (witness): the empty payload is rejected with the variant-specific
error and a concrete non-empty payload is accepted, for both variants. -/
theorem C5_signal_runtime_upgrade_nonempty_witness :
    ensure_details_checks 0 (.Signal []) = .error .SignalProposalIsEmpty ∧
    ensure_details_checks 0 (.RuntimeUpgrade []) =
      .error .RuntimeProposalIsEmpty ∧
    ensure_details_checks 0 (.Signal [7]) = .ok () ∧
    ensure_details_checks 0 (.RuntimeUpgrade [7]) = .ok () :=
  ⟨(C5_signal_runtime_upgrade_nonempty 0 []).2.1 rfl,
   (C5_signal_runtime_upgrade_nonempty 0 []).2.2.2 rfl,
   (C5_signal_runtime_upgrade_nonempty 0 [7]).1.mpr (by decide),
   (C5_signal_runtime_upgrade_nonempty 0 [7]).2.2.1.mpr (by decide)⟩

/-- C6: the Parameter Registry lookup and the Weight Estimator are total
over the closed variant catalogue: for every variant the lookup equals the
tag-indexed registry entry, and the creation weight equals the total
tag-indexed weight function of the title, description and payload lengths
— so no case is omitted, there is no default branch, and every variant has
a defined result. -/
theorem C6_dispatch_tables_total (P : Type) (reg : Registry P)
    (w : WeightInfo) (g : GeneralProposalParams) (d : ProposalDetails) :
    get_proposal_parameters reg d = paramsByTag reg (variantTag d) ∧
    get_create_proposal_weight w g d =
      weightByTag w (sat32 g.title.length) (sat32 g.description.length)
        (variantTag d) (payloadLens d) := by
  constructor <;> cases d <;> rfl

/-- Reading a group's budget after writing that same group returns the
written value. -/
theorem get_set_working_group_budget_same (s : BudgetState) (g : WorkingGroup) (v : Nat) :
    get_working_group_budget (set_working_group_budget s g v) g = v := by
  cases g <;> rfl

/-- Reading a group's budget after writing a different group is
unchanged. -/
theorem get_set_working_group_budget_ne (s : BudgetState) (g g' : WorkingGroup) (v : Nat)
    (h : g' ≠ g) :
    get_working_group_budget (set_working_group_budget s g v) g' =
      get_working_group_budget s g' := by
  cases g <;> cases g' <;> first | rfl | exact absurd rfl h

/-- Writing the council budget does not change any group budget. -/
theorem get_councilSetBudget (s : BudgetState) (b : Nat) (g : WorkingGroup) :
    get_working_group_budget (councilSetBudget s b) g =
      get_working_group_budget s g := by
  cases g <;> rfl

/-- Writing a group budget does not change the council budget. -/
theorem councilBudget_set_working_group_budget (s : BudgetState) (g : WorkingGroup) (v : Nat) :
    (set_working_group_budget s g v).councilBudget = s.councilBudget := by
  cases g <;> rfl

/-- Writing a group's budget back with its current value is the identity. -/
theorem set_working_group_budget_self (s : BudgetState) (g : WorkingGroup) :
    set_working_group_budget s g (get_working_group_budget s g) = s := by
  cases g <;> rfl

/-- C7: for a root-authorized budget update of amount A — Positive kind:
with council budget at least A the call succeeds, the council budget
decreases by A, the group's budget increases by A (saturating) and no
other balance changes; with council budget below A it fails with
`InsufficientFundsForBudgetUpdate` and the state is unchanged.  Negative
kind: symmetric, with the group budget as the paying side and the council
as the saturating receiver. -/
theorem C7_update_working_group_budget (s : BudgetState) (g : WorkingGroup) (A : Nat) :
    (A ≤ s.councilBudget →
      (update_working_group_budget .Root s g A .Positive).1 = .ok () ∧
      (update_working_group_budget .Root s g A .Positive).2.councilBudget =
        s.councilBudget - A ∧
      get_working_group_budget (update_working_group_budget .Root s g A .Positive).2 g =
        saturating_add (get_working_group_budget s g) A ∧
      ∀ g', g' ≠ g →
        get_working_group_budget (update_working_group_budget .Root s g A .Positive).2 g' =
          get_working_group_budget s g') ∧
    (s.councilBudget < A →
      update_working_group_budget .Root s g A .Positive =
        (.error (.Module .InsufficientFundsForBudgetUpdate), s)) ∧
    (A ≤ get_working_group_budget s g →
      (update_working_group_budget .Root s g A .Negative).1 = .ok () ∧
      (update_working_group_budget .Root s g A .Negative).2.councilBudget =
        saturating_add s.councilBudget A ∧
      get_working_group_budget (update_working_group_budget .Root s g A .Negative).2 g =
        get_working_group_budget s g - A ∧
      ∀ g', g' ≠ g →
        get_working_group_budget (update_working_group_budget .Root s g A .Negative).2 g' =
          get_working_group_budget s g') ∧
    (get_working_group_budget s g < A →
      update_working_group_budget .Root s g A .Negative =
        (.error (.Module .InsufficientFundsForBudgetUpdate), s)) := by
  have hposOk : A ≤ s.councilBudget →
      update_working_group_budget .Root s g A .Positive =
        (.ok (), councilSetBudget
          (set_working_group_budget s g (saturating_add (get_working_group_budget s g) A))
          (s.councilBudget - A)) := by
    intro h
    simp only [update_working_group_budget, ensure_root]
    rw [if_pos h]
  have hnegOk : A ≤ get_working_group_budget s g →
      update_working_group_budget .Root s g A .Negative =
        (.ok (), councilSetBudget
          (set_working_group_budget s g (get_working_group_budget s g - A))
          (saturating_add s.councilBudget A)) := by
    intro h
    simp only [update_working_group_budget, ensure_root]
    rw [if_pos h]
  refine ⟨?_, ?_, ?_, ?_⟩
  · intro h
    rw [hposOk h]
    refine ⟨rfl, rfl, ?_, ?_⟩
    · rw [get_councilSetBudget, get_set_working_group_budget_same]
    · intro g' hg'
      rw [get_councilSetBudget, get_set_working_group_budget_ne _ _ _ _ hg']
  · intro h
    simp only [update_working_group_budget, ensure_root]
    rw [if_neg (by omega)]
  · intro h
    rw [hnegOk h]
    refine ⟨rfl, rfl, ?_, ?_⟩
    · rw [get_councilSetBudget, get_set_working_group_budget_same]
    · intro g' hg'
      rw [get_councilSetBudget, get_set_working_group_budget_ne _ _ _ _ hg']
  · intro h
    simp only [update_working_group_budget, ensure_root]
    rw [if_neg (by omega)]

/-- C7 (witness): the spec's concrete test rows — with council budget 1000
and forum budget 500: a Positive transfer of 1000 succeeds leaving council
0 and forum 1500, a Positive transfer of 1001 fails unchanged; a Negative
transfer of 500 succeeds leaving forum 0 and council 1500, a Negative
transfer of 501 fails unchanged. -/
theorem C7_update_working_group_budget_witness :
    (update_working_group_budget .Root ⟨1000, 500, 0, 0, 0⟩ .Forum 1000 .Positive).2.councilBudget = 0 ∧
    get_working_group_budget
      (update_working_group_budget .Root ⟨1000, 500, 0, 0, 0⟩ .Forum 1000 .Positive).2 .Forum = 1500 ∧
    update_working_group_budget .Root ⟨1000, 500, 0, 0, 0⟩ .Forum 1001 .Positive =
      (.error (.Module .InsufficientFundsForBudgetUpdate), ⟨1000, 500, 0, 0, 0⟩) ∧
    get_working_group_budget
      (update_working_group_budget .Root ⟨1000, 500, 0, 0, 0⟩ .Forum 500 .Negative).2 .Forum = 0 ∧
    (update_working_group_budget .Root ⟨1000, 500, 0, 0, 0⟩ .Forum 500 .Negative).2.councilBudget = 1500 ∧
    update_working_group_budget .Root ⟨1000, 500, 0, 0, 0⟩ .Forum 501 .Negative =
      (.error (.Module .InsufficientFundsForBudgetUpdate), ⟨1000, 500, 0, 0, 0⟩) :=
  ⟨((C7_update_working_group_budget ⟨1000, 500, 0, 0, 0⟩ .Forum 1000).1 (by decide)).2.1,
   by
     have h := ((C7_update_working_group_budget ⟨1000, 500, 0, 0, 0⟩ .Forum 1000).1 (by decide)).2.2.1
     simpa [saturating_add, U128_MAX, get_working_group_budget] using h,
   (C7_update_working_group_budget ⟨1000, 500, 0, 0, 0⟩ .Forum 1001).2.1 (by decide),
   by
     have h := ((C7_update_working_group_budget ⟨1000, 500, 0, 0, 0⟩ .Forum 500).2.2.1 (by decide)).2.2.1
     simpa [get_working_group_budget] using h,
   by
     have h := ((C7_update_working_group_budget ⟨1000, 500, 0, 0, 0⟩ .Forum 500).2.2.1 (by decide)).2.1
     simpa [saturating_add, U128_MAX] using h,
   (C7_update_working_group_budget ⟨1000, 500, 0, 0, 0⟩ .Forum 501).2.2.2 (by decide)⟩

/-- C10: a root-authorized budget update of amount 0, in either direction,
succeeds and leaves the entire budget state unchanged, provided the two
balances respect the `u128` range (which every reachable runtime balance
does). -/
theorem C10_zero_amount_budget_update (s : BudgetState) (g : WorkingGroup)
    (k : BalanceKind) (hc : s.councilBudget ≤ U128_MAX)
    (hw : get_working_group_budget s g ≤ U128_MAX) :
    update_working_group_budget .Root s g 0 k = (.ok (), s) := by
  have hsatw : saturating_add (get_working_group_budget s g) 0 =
      get_working_group_budget s g := by
    unfold saturating_add
    omega
  have hsatc : saturating_add s.councilBudget 0 = s.councilBudget := by
    unfold saturating_add
    omega
  cases k with
  | Positive =>
    simp only [update_working_group_budget, ensure_root]
    rw [if_pos (Nat.zero_le _), hsatw, set_working_group_budget_self,
      Nat.sub_zero]
    rfl
  | Negative =>
    simp only [update_working_group_budget, ensure_root]
    rw [if_pos (Nat.zero_le _), hsatc, Nat.sub_zero,
      set_working_group_budget_self]
    rfl

/-- C10 (witness): a zero-amount update on a concrete in-range state in
both directions returns success with the state unchanged. -/
theorem C10_zero_amount_budget_update_witness :
    update_working_group_budget .Root ⟨7, 1, 2, 3, 4⟩ .Content 0 .Positive =
      (.ok (), ⟨7, 1, 2, 3, 4⟩) ∧
    update_working_group_budget .Root ⟨7, 1, 2, 3, 4⟩ .Content 0 .Negative =
      (.ok (), ⟨7, 1, 2, 3, 4⟩) :=
  ⟨C10_zero_amount_budget_update ⟨7, 1, 2, 3, 4⟩ .Content .Positive
      (by decide) (by decide),
   C10_zero_amount_budget_update ⟨7, 1, 2, 3, 4⟩ .Content .Negative
      (by decide) (by decide)⟩

/-- C8 (counterexample): a signed, non-root call to
`execute_signal_proposal` is rejected with the dispatch-level `BadOrigin`
error produced by `ensure_root`, not with the codex module error
`RequireRootOrigin` the claim names (that error variant is declared but
never produced by the source). -/
theorem C8_require_root_origin_counterexample :
    execute_signal_proposal (.Signed 1) [1] = .error .BadOrigin ∧
    execute_signal_proposal (.Signed 1) [1] ≠
      .error (.Module .RequireRootOrigin) := by
  decide

/-- C8 (amended): for every non-root origin, the three privileged
executors reject the call with the dispatch-level `BadOrigin` error (the
codex `RequireRootOrigin` variant is declared but never returned) and
perform no state change: the runtime code and the budget state are
returned unchanged. -/
theorem C8_non_root_rejected (o : Origin) (h : o ≠ .Root)
    (sig wasm cs : List Nat) (s : BudgetState) (g : WorkingGroup)
    (A : Nat) (k : BalanceKind) :
    execute_signal_proposal o sig = .error .BadOrigin ∧
    execute_runtime_upgrade_proposal o cs wasm = (.error .BadOrigin, cs) ∧
    update_working_group_budget o s g A k = (.error .BadOrigin, s) := by
  cases o with
  | Root => exact absurd rfl h
  | Signed a => exact ⟨rfl, rfl, rfl⟩
  | NoOrigin => exact ⟨rfl, rfl, rfl⟩

/-- C8 (witness): a concrete signed origin is rejected by all three
executors with `BadOrigin`, leaving the concrete code and budget state
unchanged. -/
theorem C8_non_root_rejected_witness :
    execute_signal_proposal (.Signed 2) [5] = .error .BadOrigin ∧
    execute_runtime_upgrade_proposal (.Signed 2) [1, 2] [9] =
      (.error .BadOrigin, [1, 2]) ∧
    update_working_group_budget (.Signed 2) ⟨10, 0, 0, 0, 0⟩ .Storage 3 .Negative =
      (.error .BadOrigin, ⟨10, 0, 0, 0, 0⟩) :=
  C8_non_root_rejected (.Signed 2) (by decide) [5] [9] [1, 2]
    ⟨10, 0, 0, 0, 0⟩ .Storage 3 .Negative

/-- C1 (failing input): in a state where proposal 1 has thread 5 recorded,
thread 5 has a record, and post 10 lives under thread 5, `proposal_removed 1`
deletes both codex mappings but leaves thread 5's record and its post in
place: the thread id is looked up only after its mapping was removed, so
the handler removes the records under the default thread id 0 instead of
those under the associated thread id 5. -/
theorem C1_cleanup_handler_code_eval :
    proposal_removed ⟨[(1, 5)], [(1, .Signal [1])], [(5, 11)], [((5, 10), 12)]⟩ 1 =
      ⟨[], [], [(5, 11)], [((5, 10), 12)]⟩ ∧
    mapGet (proposal_removed
      ⟨[(1, 5)], [(1, .Signal [1])], [(5, 11)], [((5, 10), 12)]⟩ 1).threadById 5 =
      some 11 := by
  decide

/-- C2 (failing input): invoking `proposal_removed` with an identity that
has no codex record is not a no-op: in a state whose discussion storage
has a record and a post under the default thread id 0, the call deletes
both, because the dead read of the just-removed mapping yields 0. -/
theorem C2_cleanup_absent_identity_code_eval :
    proposal_removed ⟨[], [], [(0, 3)], [((0, 4), 3)]⟩ 42 = ⟨[], [], [], []⟩ ∧
    proposal_removed ⟨[], [], [(0, 3)], [((0, 4), 3)]⟩ 42 ≠
      ⟨[], [], [(0, 3)], [((0, 4), 3)]⟩ := by
  decide

/-- C9: whenever the details validator rejects the variant payload,
`create_proposal` returns exactly that validation error and the state is
unchanged — no collaborator runs, no thread is created, no proposal is
admitted and neither codex mapping is written — for every registry,
every collaborator behavior, every origin and every starting state. -/
theorem C9_validation_failure_aborts {P : Type} (reg : Registry P)
    (ext : Externals P) (minimum_validator_count : Nat) (s : SysState)
    (origin : Origin) (g : GeneralProposalParams) (d : ProposalDetails)
    (e : Error) (h : ensure_details_checks minimum_validator_count d = .error e) :
    create_proposal reg ext minimum_validator_count s origin g d =
      (.error (.Module e), s) := by
  simp only [create_proposal, h]

/-- C9 (witness): an empty Signal payload fails validation, and the
concrete `create_proposal` call returns that error with the state
unchanged even under collaborators that would accept everything. -/
theorem C9_validation_failure_aborts_witness :
    ensure_details_checks 0 (.Signal []) = .error .SignalProposalIsEmpty ∧
    create_proposal zeroRegistry okExternals 0 emptySysState .Root
      ⟨0, [], [], none, none⟩ (.Signal []) =
      (.error (.Module .SignalProposalIsEmpty), emptySysState) :=
  ⟨by decide,
   C9_validation_failure_aborts zeroRegistry okExternals 0 emptySysState .Root
     ⟨0, [], [], none, none⟩ (.Signal []) .SignalProposalIsEmpty (by decide)⟩

end Codex
